import Mathlib

/-!
Formal model of the conversation controller in
`src/app/components/AIChatbotApp.tsx` (the canonical variant of the
webapp-prompt-builder repository).

The embedding is shallow: every React `useState` field of the component
becomes a field of `AppState`, and every event handler becomes a pure
function from the current state (plus the Gateway's reply, which the
browser receives asynchronously) to the next state together with the list
of Gateway requests the handler issued.  The LLM Gateway itself is an
external oracle, so its replies are inputs of the model.

Platform builtins used by the component are modelled on the fragment the
component exercises:
* `JSON.parse` is modelled by `Json.parse`, a recursive-descent parser for
  JSON values (numeric literals are modelled on the integer fragment; the
  modelled exchanges never produce fractional or exponent literals).
* `String.prototype.trim` is modelled by `jsTrim` over the common
  ECMAScript whitespace characters.
* the regex replace stripping code fences is modelled by `stripFences`.
* `toUpperCase` is modelled by `jsToUpper` (ASCII fragment).
* option labels are stored through the ECMAScript ToString image
  (`Json.jsToStr`), which is the identity on the string options the
  Gateway contract specifies.
-/

/-- Parsed JSON values, as produced by the modelled `JSON.parse`. -/
inductive Json where
  | null
  | bool (b : Bool)
  | num (n : Int)
  | str (s : String)
  | arr (elems : List Json)
  | obj (fields : List (String × Json))

/-- The left-brace character, `\x7b`. -/
def lbrace : Char := Char.ofNat 123

/-- The right-brace character, `\x7d`. -/
def rbrace : Char := Char.ofNat 125

/-- The backquote character, `\x60`. -/
def backquote : Char := Char.ofNat 96

/-- JSON insignificant whitespace (the four characters JSON.parse skips). -/
def skipJsonWs : List Char → List Char
  | [] => []
  | c :: rest =>
    if c = ' ' ∨ c = '\t' ∨ c = '\n' ∨ c = '\r' then skipJsonWs rest else c :: rest

/-- Value of a hexadecimal digit character, if any. -/
def hexVal (c : Char) : Option Nat :=
  if '0' ≤ c ∧ c ≤ '9' then some (c.toNat - 48)
  else if 'a' ≤ c ∧ c ≤ 'f' then some (c.toNat - 87)
  else if 'A' ≤ c ∧ c ≤ 'F' then some (c.toNat - 55)
  else none

/-- Decoding of a single-character JSON string escape. -/
def escDecode (e : Char) : Option Char :=
  if e = '"' then some '"'
  else if e = '\\' then some '\\'
  else if e = '/' then some '/'
  else if e = 'b' then some (Char.ofNat 8)
  else if e = 'f' then some (Char.ofNat 12)
  else if e = 'n' then some '\n'
  else if e = 'r' then some '\r'
  else if e = 't' then some '\t'
  else none

/-- Parse the body of a JSON string literal (the opening quote already
consumed), returning the decoded string and the remaining input. -/
def parseJsonString : List Char → Option (String × List Char)
  | [] => none
  | c :: rest =>
    if c = '"' then some ("", rest)
    else if c = '\\' then
      match rest with
      | [] => none
      | e :: rest2 =>
        if e = 'u' then
          match rest2 with
          | h1 :: h2 :: h3 :: h4 :: rest3 =>
            match hexVal h1, hexVal h2, hexVal h3, hexVal h4 with
            | some a, some b, some c2, some d =>
              match parseJsonString rest3 with
              | some (s, r) => some (String.mk (Char.ofNat (((a * 16 + b) * 16 + c2) * 16 + d) :: s.toList), r)
              | none => none
            | _, _, _, _ => none
          | _ => none
        else
          match escDecode e with
          | some ch =>
            match parseJsonString rest2 with
            | some (s, r) => some (String.mk (ch :: s.toList), r)
            | none => none
          | none => none
    else if c.toNat < 32 then none
    else
      match parseJsonString rest with
      | some (s, r) => some (String.mk (c :: s.toList), r)
      | none => none

/-- Longest digit run at the head of the input. -/
def spanDigits : List Char → (List Char × List Char)
  | [] => ([], [])
  | c :: rest =>
    if c.isDigit then
      match spanDigits rest with
      | (ds, r) => (c :: ds, r)
    else ([], c :: rest)

/-- Numeric value of a digit run. -/
def digitsToNat (ds : List Char) : Nat :=
  ds.foldl (fun a d => a * 10 + (d.toNat - 48)) 0

/-- Parse a JSON natural-number literal (no leading zeros, per the JSON
grammar); the sign is handled by the caller. -/
def parseNum : List Char → Option (Nat × List Char)
  | [] => none
  | c :: rest =>
    if c = '0' then
      match rest with
      | d :: _ => if d.isDigit then none else some (0, rest)
      | [] => some (0, [])
    else if c.isDigit then
      match spanDigits rest with
      | (ds, r) => some (digitsToNat (c :: ds), r)
    else none

mutual

/-- Fuel-based recursive-descent parser for a JSON value, modelling
`JSON.parse` on the fragment the component exchanges. -/
def parseValue : Nat → List Char → Option (Json × List Char)
  | 0, _ => none
  | fuel + 1, cs =>
    match skipJsonWs cs with
    | [] => none
    | c :: rest =>
      if c = 'n' then
        match rest with
        | 'u' :: 'l' :: 'l' :: r => some (Json.null, r)
        | _ => none
      else if c = 't' then
        match rest with
        | 'r' :: 'u' :: 'e' :: r => some (Json.bool true, r)
        | _ => none
      else if c = 'f' then
        match rest with
        | 'a' :: 'l' :: 's' :: 'e' :: r => some (Json.bool false, r)
        | _ => none
      else if c = '"' then
        match parseJsonString rest with
        | some (s, r) => some (Json.str s, r)
        | none => none
      else if c = '[' then
        match skipJsonWs rest with
        | ']' :: r => some (Json.arr [], r)
        | _ =>
          match parseElems fuel rest with
          | some (xs, r) => some (Json.arr xs, r)
          | none => none
      else if c = lbrace then
        match skipJsonWs rest with
        | d :: r =>
          if d = rbrace then some (Json.obj [], r)
          else
            match parseFields fuel rest with
            | some (fs, r2) => some (Json.obj fs, r2)
            | none => none
        | [] => none
      else if c = '-' then
        match parseNum rest with
        | some (n, r) => some (Json.num (-(n : Int)), r)
        | none => none
      else if c.isDigit then
        match parseNum (c :: rest) with
        | some (n, r) => some (Json.num (n : Int), r)
        | none => none
      else none

/-- Parse the comma-separated elements of a non-empty JSON array, up to and
including the closing bracket. -/
def parseElems : Nat → List Char → Option (List Json × List Char)
  | 0, _ => none
  | fuel + 1, cs =>
    match parseValue fuel cs with
    | none => none
    | some (x, r) =>
      match skipJsonWs r with
      | ',' :: r2 =>
        match parseElems fuel r2 with
        | some (xs, r3) => some (x :: xs, r3)
        | none => none
      | ']' :: r2 => some ([x], r2)
      | _ => none

/-- Parse the comma-separated members of a non-empty JSON object, up to and
including the closing brace. -/
def parseFields : Nat → List Char → Option (List (String × Json) × List Char)
  | 0, _ => none
  | fuel + 1, cs =>
    match skipJsonWs cs with
    | '"' :: rest =>
      match parseJsonString rest with
      | none => none
      | some (k, r) =>
        match skipJsonWs r with
        | ':' :: r2 =>
          match parseValue fuel r2 with
          | none => none
          | some (v, r3) =>
            match skipJsonWs r3 with
            | ',' :: r4 =>
              match parseFields fuel r4 with
              | some (fs, r5) => some ((k, v) :: fs, r5)
              | none => none
            | d :: r4 => if d = rbrace then some ([(k, v)], r4) else none
            | [] => none
        | _ => none
    | _ => none

end

/-- Model of `JSON.parse`: parse a complete JSON text (the whole input,
apart from surrounding whitespace, must be consumed). -/
def Json.parse (s : String) : Option Json :=
  match parseValue (2 * s.length + 8) s.toList with
  | some (j, rest) => if skipJsonWs rest = [] then some j else none
  | none => none

/-- Model of ECMAScript property access `j.key` on a parsed JSON value
for non-null receivers: `none` corresponds to `undefined` (missing field
or non-object, non-null receiver); a duplicated key keeps its last
occurrence, as `JSON.parse` does.  Property access on the JSON null value
throws a TypeError in ECMAScript; the synthesis branch of
`handleNextStep` therefore routes a null parse into its caught error path
before any access, and in `handleApiCallCore` a null receiver is
collapsed into the rejection path the thrown TypeError would reach
anyway, differing only in the message text carried by the error. -/
def Json.getField (j : Json) (key : String) : Option Json :=
  match j with
  | Json.obj fs => fs.foldl (fun acc kv => if kv.1 = key then some kv.2 else acc) none
  | _ => none

/-- Model of ECMAScript truthiness of a parsed JSON value. -/
def Json.truthy : Json → Bool
  | Json.null => false
  | Json.bool b => b
  | Json.num n => n != 0
  | Json.str s => s != ""
  | Json.arr _ => true
  | Json.obj _ => true

/-- Truthiness of a possibly-missing value (`undefined` is falsy). -/
def truthyOpt : Option Json → Bool
  | none => false
  | some j => j.truthy

/-- ECMAScript ToString image of a scalar parsed JSON value (exact on
these cases; composites are handled one level up in `Json.jsToStr`). -/
def jsScalarStr : Json → String
  | Json.null => "null"
  | Json.bool true => "true"
  | Json.bool false => "false"
  | Json.num n => toString n
  | Json.str s => s
  | Json.arr _ => ""
  | Json.obj _ => "[object Object]"

/-- Model of ECMAScript ToString on parsed JSON values, exact on scalars
and on one array level (the only shapes the modelled Gateway exchanges
produce: labels and question texts are strings by contract); an array
prints as its elements joined with commas, null elements printing empty
as in `Array.prototype.join`, and an object as "[object Object]". -/
def Json.jsToStr : Json → String
  | Json.arr xs =>
    String.intercalate (",") (xs.map (fun x =>
      match x with
      | Json.null => ""
      | y => jsScalarStr y))
  | j => jsScalarStr j

/-- Model of the ECMAScript logical-or defaulting idiom
`value || "fallback"` at the points where the component turns the reply's
`question` field into display text. -/
def jsOrElse (q : Json) (d : String) : String :=
  if q.truthy then q.jsToStr else d

/-- ECMAScript whitespace recognised by `trim` and by the regex class
`\s` (the characters that can actually occur in the modelled replies). -/
def isJsWs (c : Char) : Bool :=
  c == ' ' || c == '\t' || c == '\n' || c == '\r' ||
  c == Char.ofNat 11 || c == Char.ofNat 12 || c == Char.ofNat 160 || c == Char.ofNat 65279

/-- Model of `String.prototype.trim`. -/
def jsTrim (s : String) : String :=
  String.mk (((s.toList.dropWhile (fun c => isJsWs c)).reverse.dropWhile (fun c => isJsWs c)).reverse)

/-- Scanner for the global regex replace
`content.replace(/BQBQBQjson\s?|BQBQBQ/g, '')` (writing BQ for the
backquote): at each position the first alternative (three backquotes,
`json`, one optional whitespace) is preferred, then the bare three
backquotes; unmatched positions are copied. -/
def stripFencesGo : Nat → List Char → List Char
  | 0, cs => cs
  | _ + 1, [] => []
  | fuel + 1, c1 :: rest1 =>
    if c1 = backquote then
      match rest1 with
      | c2 :: c3 :: r =>
        if c2 = backquote ∧ c3 = backquote then
          match r with
          | 'j' :: 's' :: 'o' :: 'n' :: r2 =>
            match r2 with
            | d :: r3 => if isJsWs d then stripFencesGo fuel r3 else stripFencesGo fuel r2
            | [] => []
          | _ => stripFencesGo fuel r
        else c1 :: stripFencesGo fuel rest1
      | _ => c1 :: stripFencesGo fuel rest1
    else c1 :: stripFencesGo fuel rest1

/-- The code-fence stripping applied to the concept-synthesis reply (the
fuel bounds the scan by the input length; every step consumes at least
one character, so it never runs out). -/
def stripFences (s : String) : String :=
  String.mk (stripFencesGo (s.length + 1) s.toList)

example : Json.parse ("\x7b\"question\": \"Q1\", \"options\": [\"A\", \"B\"]\x7d") =
    some (Json.obj [("question", Json.str "Q1"), ("options", Json.arr [Json.str "A", Json.str "B"])]) := by
  rfl

example : Json.parse ("\x60\x60\x60json\n\x7b\"a\": 1\x7d\n\x60\x60\x60") = none := by rfl

example : jsTrim (stripFences ("\x60\x60\x60json\n\x7b\"a\": 1\x7d\n\x60\x60\x60")) = "\x7b\"a\": 1\x7d" := by rfl

example : Json.parse ("\x7b\"a\": 1\x7d") = some (Json.obj [("a", Json.num 1)]) := by rfl

/-- A chat message (`interface Message`): opacity is exact arithmetic on
the dyadic values the component produces (1, then halved on each later
message). -/
structure Message where
  content : String
  isUser : Bool
  id : Nat
  opacity : ℚ
deriving DecidableEq

/-- One selectable answer option (`interface Choice`). -/
structure Choice where
  label : String
  isSelected : Bool
deriving DecidableEq

/-- The complete `useState` state of the `AIChatbotApp` component.  The
`appConcepts` field holds the raw value assigned by
`setAppConcepts(parsedConcepts.appConcepts)`: `none` models the ECMAScript
`undefined` (missing field), and the initial value is the empty array. -/
structure AppState where
  messages : List Message
  input : String
  choices : List Choice
  selectedChoices : List String
  stage : String
  isLoading : Bool
  showChoices : Bool
  currentQuestion : String
  isTypingComplete : Bool
  promptError : Option String
  isGeneratingConcepts : Bool
  showCombinedPrompt : Bool
  questionCount : Nat
  appConcepts : Option Json
  progress : Nat

/-- The component's initial state (the `useState` initialisers). -/
def initState : AppState where
  messages := []
  input := ""
  choices := []
  selectedChoices := []
  stage := "initial"
  isLoading := false
  showChoices := false
  currentQuestion := ""
  isTypingComplete := true
  promptError := none
  isGeneratingConcepts := false
  showCombinedPrompt := false
  questionCount := 0
  appConcepts := some (Json.arr [])
  progress := 0

/-- `MAX_QUESTIONS` from the component. -/
def MAX_QUESTIONS : Nat := 5

/-- One Gateway (OpenAI chat-completions) exchange, as seen by the
controller: either the awaited call threw (network/HTTP failure), or it
returned with `choices[0].message.content` (which may be null, modelled
by `none`). -/
inductive GatewayReply where
  | failure (msg : String)
  | success (content : Option String)
deriving DecidableEq

/-- The kinds of Gateway requests the controller can issue. -/
inductive Request where
  | validate
  | askQuestion
  | askMoreOptions
  | synthesize
deriving DecidableEq

/-- The validated shape `handleApiCall` returns (`interface AIResponse`):
the raw `question` value and the five option labels. -/
structure AIResponse where
  question : Json
  options : List String

/-- The `addMessage` callback: fades every earlier message by half,
appends the new one (its `id` is `Date.now()`, passed in as `now`), and
for assistant messages resets the typing flag and hides the choices. -/
def addMessage (s : AppState) (content : String) (isUser : Bool) (now : Nat) : AppState :=
  let msgs := s.messages.map (fun m => { m with opacity := m.opacity / 2 }) ++
    [{ content := content, isUser := isUser, id := now, opacity := 1 }]
  if isUser then { s with messages := msgs }
  else { s with messages := msgs, isTypingComplete := false, showChoices := false }

/-- The body of `handleApiCall`'s `try` block after the completion
resolves: null content, non-JSON content, and a shape failing
`!parsedResponse.question || !Array.isArray(options) || options.length !== 5`
each throw their distinct error.  Note the check is the same regardless of
the `expectQuestion` argument, which the function never reads. -/
def handleApiCallCore (r : GatewayReply) : Except String AIResponse :=
  match r with
  | GatewayReply.failure msg => Except.error msg
  | GatewayReply.success none => Except.error ("No content in AI response")
  | GatewayReply.success (some content) =>
    match Json.parse content with
    | none => Except.error ("Invalid JSON format in AI response")
    | some parsed =>
      match parsed.getField ("question"), parsed.getField ("options") with
      | some q, some (Json.arr xs) =>
        if q.truthy ∧ xs.length = 5 then Except.ok { question := q, options := xs.map Json.jsToStr }
        else Except.error ("Invalid response structure from AI")
      | _, _ => Except.error ("Invalid response structure from AI")

/-- `handleApiCall`: the outer `catch` rewraps every error message. -/
def handleApiCall (r : GatewayReply) : Except String AIResponse :=
  (handleApiCallCore r).mapError (fun m => "Failed to process AI response: " ++ m)

/-- Model of `toUpperCase` on the ASCII fragment (the verdict letters are
the only characters it is applied to). -/
def jsToUpper (s : String) : String :=
  String.mk (s.toList.map (fun c =>
    if 97 ≤ c.toNat ∧ c.toNat ≤ 122 then Char.ofNat (c.toNat - 32) else c))

/-- The trimmed upper-cased validation verdict
`validationResponse.choices[0].message.content?.trim().toUpperCase()`
(`none` models `undefined`). -/
def normalizeValidation (content : Option String) : Option String :=
  content.map (fun c => jsToUpper (jsTrim c))

/-- `handleSendMessage`: the initial-stage submission.  `vr` is the reply
to the VALID/ABSTRACT/INVALID classification call, `qr` the reply to the
first `handleApiCall` (consumed only on a VALID verdict). -/
def handleSendMessage (s : AppState) (now : Nat) (vr qr : GatewayReply) :
    AppState × List Request :=
  if jsTrim s.input = "" then
    ({ s with promptError := some ("Your prompt is too abstract. Please be more specific.") }, [])
  else
    match vr with
    | GatewayReply.failure _ =>
      ({ (addMessage { s with promptError := none, isLoading := true }
           ("I\x27m sorry, I encountered an error processing the response. Please try again.")
           false now) with
         isLoading := false }, [Request.validate])
    | GatewayReply.success content =>
      if normalizeValidation content = some ("VALID") then
        match handleApiCall qr with
        | Except.ok resp =>
          ({ (addMessage
               (addMessage { s with promptError := none, isLoading := true } s.input true now)
               (jsOrElse resp.question ("What would you like to know about the app?")) false now) with
             input := "", stage := "in_progress",
             currentQuestion := jsOrElse resp.question ("What would you like to know about the app?"),
             choices := resp.options.map (fun o => { label := o, isSelected := false }),
             questionCount := 1, progress := 20, isLoading := false },
           [Request.validate, Request.askQuestion])
        | Except.error _ =>
          ({ (addMessage
               (addMessage { s with promptError := none, isLoading := true } s.input true now)
               ("I\x27m sorry, I encountered an error processing the response. Please try again.")
               false now) with
             input := "", stage := "in_progress", isLoading := false },
           [Request.validate, Request.askQuestion])
      else if normalizeValidation content = some ("ABSTRACT") then
        ({ s with
             promptError := some ("Your prompt is too abstract. Please be more specific."),
             isLoading := false }, [Request.validate])
      else
        ({ s with
             promptError := some ("I couldn\x27t understand your prompt. Please try again."),
             isLoading := false }, [Request.validate])

/-- The selected-labels update of `handleChoiceToggle`:
`prev.includes(label) ? prev.filter(c => c !== label) : [...prev, label]`. -/
def toggleSel (sel : List String) (label : String) : List String :=
  if label ∈ sel then sel.filter (fun c => c != label) else sel ++ [label]

/-- The choice-list update of `handleChoiceToggle`: flip `isSelected` on
every choice whose label matches. -/
def toggleChoices (cs : List Choice) (label : String) : List Choice :=
  cs.map (fun choice =>
    if choice.label = label then { choice with isSelected := !choice.isSelected } else choice)

/-- `handleChoiceToggle`. -/
def handleChoiceToggle (s : AppState) (label : String) : AppState :=
  { s with selectedChoices := toggleSel s.selectedChoices label,
           choices := toggleChoices s.choices label }

/-- `handleNextStep`: the in-progress submission.  Below `MAX_QUESTIONS - 1`
rounds it requests the next question through `handleApiCall`; otherwise it
switches to `completed`, clears the history, and requests concept
synthesis, whose reply is fence-stripped, trimmed and parsed, the parsed
`appConcepts` field being stored without further validation.  A reply
whose stripped text parses to the bare JSON null makes the property
access `parsedConcepts.appConcepts` throw a TypeError in ECMAScript, so
it lands in the same caught error path as a parse failure (progress stays
at 90, the concepts untouched). -/
def handleNextStep (s : AppState) (now : Nat) (r : GatewayReply) :
    AppState × List Request :=
  if s.selectedChoices.length = 0 then (s, [])
  else
    if s.questionCount < MAX_QUESTIONS - 1 then
      match handleApiCall r with
      | Except.ok resp =>
        ({ (addMessage
             (addMessage s ("You: " ++ String.intercalate (", ") s.selectedChoices) true now)
             (jsOrElse resp.question ("What else would you like to know about the app?")) false now) with
           selectedChoices := [], showChoices := false,
           progress := min (s.progress + 20) 80,
           currentQuestion := jsOrElse resp.question ("What else would you like to know about the app?"),
           choices := resp.options.map (fun o => { label := o, isSelected := false }),
           questionCount := s.questionCount + 1, isLoading := false },
         [Request.askQuestion])
      | Except.error _ =>
        ({ (addMessage
             (addMessage s ("You: " ++ String.intercalate (", ") s.selectedChoices) true now)
             ("I\x27m sorry, I encountered an error generating the next question. Please try again.")
             false now) with
           selectedChoices := [], showChoices := false,
           progress := min (s.progress + 20) 80, isLoading := false },
         [Request.askQuestion])
    else
      match r with
      | GatewayReply.success (some content) =>
        match Json.parse (jsTrim (stripFences content)) with
        | some Json.null =>
          ({ s with
               selectedChoices := [], stage := "completed", showChoices := false,
               messages := [], progress := 90,
               isGeneratingConcepts := false, showCombinedPrompt := true },
           [Request.synthesize])
        | some parsed =>
          ({ s with
               selectedChoices := [], stage := "completed", showChoices := false,
               messages := [], appConcepts := parsed.getField ("appConcepts"), progress := 100,
               isGeneratingConcepts := false, showCombinedPrompt := true },
           [Request.synthesize])
        | none =>
          ({ s with
               selectedChoices := [], stage := "completed", showChoices := false,
               messages := [], progress := 90,
               isGeneratingConcepts := false, showCombinedPrompt := true },
           [Request.synthesize])
      | _ =>
        ({ s with
             selectedChoices := [], stage := "completed", showChoices := false,
             messages := [], progress := 90,
             isGeneratingConcepts := false, showCombinedPrompt := true },
         [Request.synthesize])

/-- `handleMoreChoices`: every reply still goes through `handleApiCall`
(the `false` passed for `expectQuestion` is never read there), so the
in-function `length === 0` check is reachable only in its `false` case. -/
def handleMoreChoices (s : AppState) (now : Nat) (r : GatewayReply) :
    AppState × List Request :=
  match handleApiCall r with
  | Except.ok resp =>
    if resp.options.length = 0 then
      ({ (addMessage { s with isLoading := true }
           ("I\x27m sorry, I encountered an error while fetching more options: Invalid response structure from AI. Please try again.")
           false now) with
         isLoading := false }, [Request.askMoreOptions])
    else
      ({ s with
           choices := s.choices ++ resp.options.map (fun o => { label := o, isSelected := false }),
           isLoading := false }, [Request.askMoreOptions])
  | Except.error msg =>
    ({ (addMessage { s with isLoading := true }
         ("I\x27m sorry, I encountered an error while fetching more options: " ++ msg ++ ". Please try again.")
         false now) with
       isLoading := false }, [Request.askMoreOptions])

/-- `resetApp`. -/
def resetApp (s : AppState) : AppState :=
  { s with stage := "initial", messages := [], input := "", choices := [],
           selectedChoices := [], questionCount := 0,
           appConcepts := some (Json.arr []), progress := 0 }

/-- The states a session can reach: the initial state, closed under the
user events the rendered UI can fire (typing into the input, submitting —
routed by `handleInputSubmit` on the stage —, toggling a choice, asking
for more options, and resetting). -/
inductive Reachable : AppState → Prop where
  | init : Reachable initState
  | setInput (s : AppState) (v : String) : Reachable s → Reachable { s with input := v }
  | send (s : AppState) (now : Nat) (vr qr : GatewayReply) : Reachable s →
      s.stage = "initial" → Reachable (handleSendMessage s now vr qr).1
  | toggle (s : AppState) (l : String) : Reachable s → Reachable (handleChoiceToggle s l)
  | next (s : AppState) (now : Nat) (r : GatewayReply) : Reachable s →
      s.stage ≠ "initial" → Reachable (handleNextStep s now r).1
  | more (s : AppState) (now : Nat) (r : GatewayReply) : Reachable s →
      Reachable (handleMoreChoices s now r).1
  | reset (s : AppState) : Reachable s → Reachable (resetApp s)

/-- A contract-conforming question reply used by the demonstration
session below. -/
def demoQuestionContent : String :=
  "\x7b\"question\": \"Q1\", \"options\": [\"A\", \"B\", \"C\", \"D\", \"E\"]\x7d"

/-- The Gateway reply carrying `demoQuestionContent`. -/
def demoQuestionReply : GatewayReply := GatewayReply.success (some demoQuestionContent)

/-- Demonstration session, step 1: the user has typed a prompt. -/
def demoState1 : AppState := { initState with input := "a fitness app" }

/-- Step 2: the prompt is submitted, classified VALID, first question
received. -/
def demoState2 : AppState :=
  (handleSendMessage demoState1 1 (GatewayReply.success (some ("VALID"))) demoQuestionReply).1

/-- Step 3: one option toggled on. -/
def demoState3 : AppState := handleChoiceToggle demoState2 ("A")

/-- Step 4: second round. -/
def demoState4 : AppState := (handleNextStep demoState3 2 demoQuestionReply).1

/-- Step 5: one option toggled on. -/
def demoState5 : AppState := handleChoiceToggle demoState4 ("B")

/-- Step 6: third round. -/
def demoState6 : AppState := (handleNextStep demoState5 3 demoQuestionReply).1

/-- Step 7: one option toggled on. -/
def demoState7 : AppState := handleChoiceToggle demoState6 ("C")

/-- Step 8: fourth round, reaching the final question counter value. -/
def demoState8 : AppState := (handleNextStep demoState7 4 demoQuestionReply).1

/-- Step 9: one option toggled on, ready for the final submission. -/
def demoState9 : AppState := handleChoiceToggle demoState8 ("D")

example : demoState2.stage = "in_progress" := by rfl
example : demoState2.questionCount = 1 := by rfl
example : demoState2.choices =
    [{ label := "A", isSelected := false }, { label := "B", isSelected := false },
     { label := "C", isSelected := false }, { label := "D", isSelected := false },
     { label := "E", isSelected := false }] := by rfl
example : demoState9.questionCount = 4 := by rfl
example : demoState9.selectedChoices = ["D"] := by rfl
example : demoState9.stage = "in_progress" := by rfl
example : demoState9.progress = 80 := by rfl

/-- A synthesis reply whose `appConcepts` array has two (string) entries. -/
def demoConceptsContent : String := "\x7b\"appConcepts\": [\"x\", \"y\"]\x7d"

/-- The state after the final submission with the two-entry synthesis
reply. -/
def demoCompletedState : AppState :=
  (handleNextStep demoState9 5 (GatewayReply.success (some demoConceptsContent))).1

example : demoCompletedState.stage = "completed" := by rfl
example : demoCompletedState.progress = 100 := by rfl
example : demoCompletedState.appConcepts = some (Json.arr [Json.str "x", Json.str "y"]) := by rfl
example : demoCompletedState.showCombinedPrompt = true := by rfl

/-- The demonstration session is made of reachable states. -/
theorem demoState9_reachable : Reachable demoState9 :=
  Reachable.toggle demoState8 ("D")
    (Reachable.next demoState7 4 demoQuestionReply
      (Reachable.toggle demoState6 ("C")
        (Reachable.next demoState5 3 demoQuestionReply
          (Reachable.toggle demoState4 ("B")
            (Reachable.next demoState3 2 demoQuestionReply
              (Reachable.toggle demoState2 ("A")
                (Reachable.send demoState1 1 (GatewayReply.success (some ("VALID"))) demoQuestionReply
                  (Reachable.setInput initState ("a fitness app") Reachable.init)
                  (by rfl)))
              (by decide)))
          (by decide)))
      (by decide))

/-- The shape condition on a parsed question reply that the spec calls
malformed: the `options` field is an array of length other than five, or
the `question` field is missing. -/
def badQuestionShape (j : Json) : Bool :=
  (match j.getField ("options") with
   | some (Json.arr xs) => decide (xs.length ≠ 5)
   | _ => false) || (j.getField ("question")).isNone

/-- A Gateway reply on which the concept-synthesis branch fails: the call
threw, returned null content, or content that is not JSON even after
fence stripping and trimming. -/
def synthesisFails (r : GatewayReply) : Bool :=
  match r with
  | GatewayReply.failure _ => true
  | GatewayReply.success none => true
  | GatewayReply.success (some content) => (Json.parse (jsTrim (stripFences content))).isNone

@[simp] lemma addMessage_stage (s : AppState) (c : String) (u : Bool) (n : Nat) :
    (addMessage s c u n).stage = s.stage := by cases u <;> rfl

@[simp] lemma addMessage_questionCount (s : AppState) (c : String) (u : Bool) (n : Nat) :
    (addMessage s c u n).questionCount = s.questionCount := by cases u <;> rfl

@[simp] lemma addMessage_appConcepts (s : AppState) (c : String) (u : Bool) (n : Nat) :
    (addMessage s c u n).appConcepts = s.appConcepts := by cases u <;> rfl

@[simp] lemma addMessage_choices (s : AppState) (c : String) (u : Bool) (n : Nat) :
    (addMessage s c u n).choices = s.choices := by cases u <;> rfl

@[simp] lemma addMessage_selectedChoices (s : AppState) (c : String) (u : Bool) (n : Nat) :
    (addMessage s c u n).selectedChoices = s.selectedChoices := by cases u <;> rfl

@[simp] lemma addMessage_input (s : AppState) (c : String) (u : Bool) (n : Nat) :
    (addMessage s c u n).input = s.input := by cases u <;> rfl

@[simp] lemma addMessage_progress (s : AppState) (c : String) (u : Bool) (n : Nat) :
    (addMessage s c u n).progress = s.progress := by cases u <;> rfl

@[simp] lemma addMessage_promptError (s : AppState) (c : String) (u : Bool) (n : Nat) :
    (addMessage s c u n).promptError = s.promptError := by cases u <;> rfl

@[simp] lemma addMessage_currentQuestion (s : AppState) (c : String) (u : Bool) (n : Nat) :
    (addMessage s c u n).currentQuestion = s.currentQuestion := by cases u <;> rfl

@[simp] lemma addMessage_showCombinedPrompt (s : AppState) (c : String) (u : Bool) (n : Nat) :
    (addMessage s c u n).showCombinedPrompt = s.showCombinedPrompt := by cases u <;> rfl

@[simp] lemma addMessage_isGeneratingConcepts (s : AppState) (c : String) (u : Bool) (n : Nat) :
    (addMessage s c u n).isGeneratingConcepts = s.isGeneratingConcepts := by cases u <;> rfl

@[simp] lemma addMessage_isLoading (s : AppState) (c : String) (u : Bool) (n : Nat) :
    (addMessage s c u n).isLoading = s.isLoading := by cases u <;> rfl

/-- The message appended by `addMessage` is the last one, with full
opacity and the supplied id. -/
lemma addMessage_getLast (s : AppState) (c : String) (u : Bool) (n : Nat) :
    (addMessage s c u n).messages.getLast? =
      some { content := c, isUser := u, id := n, opacity := 1 } := by
  cases u <;> simp [addMessage]

/-- A parsed question reply of bad shape makes `handleApiCall` report the
malformed-structure error. -/
lemma apiCall_error_of_badShape (content : String) (j : Json)
    (hparse : Json.parse content = some j) (hbad : badQuestionShape j = true) :
    handleApiCall (GatewayReply.success (some content)) =
      Except.error ("Failed to process AI response: Invalid response structure from AI") := by
  simp only [handleApiCall, handleApiCallCore, hparse]
  rcases hq : j.getField ("question") with _ | q
  · rcases ho : j.getField ("options") with _ | v
    · rfl
    · cases v <;> rfl
  · rcases ho : j.getField ("options") with _ | v
    · rfl
    · cases v with
      | null => rfl
      | bool b => rfl
      | num n => rfl
      | str t => rfl
      | obj fs => rfl
      | arr xs =>
        have hxs : xs.length ≠ 5 := by
          have hb := hbad
          unfold badQuestionShape at hb
          rw [hq, ho] at hb
          simpa using hb
        have hcond : ¬ (q.truthy = true ∧ xs.length = 5) := by
          rintro ⟨-, h5⟩
          exact hxs h5
        simp only [hcond, if_neg]
        rfl

/-- When `handleApiCall` rejects the reply, `handleNextStep` (below the
final round, with a nonempty selection) keeps the choice set, counter and
stage, and appends the error message. -/
lemma nextStep_apiError (s : AppState) (now : Nat) (r : GatewayReply) (msg : String)
    (hsel : s.selectedChoices ≠ []) (hcnt : s.questionCount < MAX_QUESTIONS - 1)
    (herr : handleApiCall r = Except.error msg) :
    (handleNextStep s now r).1.choices = s.choices ∧
    (handleNextStep s now r).1.questionCount = s.questionCount ∧
    (handleNextStep s now r).1.stage = s.stage ∧
    (handleNextStep s now r).1.messages.getLast? =
      some { content := "I\x27m sorry, I encountered an error generating the next question. Please try again.",
             isUser := false, id := now, opacity := 1 } := by
  have hlen : ¬ s.selectedChoices.length = 0 := by simpa using hsel
  unfold handleNextStep
  rw [if_neg hlen, if_pos hcnt, herr]
  refine ⟨by simp, by simp, by simp, ?_⟩
  simp [addMessage_getLast]

/-- The final-round behaviour of `handleNextStep`: it completes the stage,
clears the history, keeps the counter, issues exactly the synthesis
request, and on a failing synthesis reply leaves `appConcepts` untouched. -/
lemma nextStep_final_round (s : AppState) (now : Nat) (r : GatewayReply)
    (hsel : s.selectedChoices ≠ []) (hcnt : ¬ s.questionCount < MAX_QUESTIONS - 1) :
    (handleNextStep s now r).1.stage = "completed" ∧
    (handleNextStep s now r).1.questionCount = s.questionCount ∧
    (handleNextStep s now r).1.messages = [] ∧
    (handleNextStep s now r).1.showCombinedPrompt = true ∧
    (handleNextStep s now r).2 = [Request.synthesize] ∧
    (synthesisFails r = true → (handleNextStep s now r).1.appConcepts = s.appConcepts) := by
  have hlen : ¬ s.selectedChoices.length = 0 := by simpa using hsel
  unfold handleNextStep
  rw [if_neg hlen, if_neg hcnt]
  match r with
  | GatewayReply.failure m => simp
  | GatewayReply.success none => simp
  | GatewayReply.success (some content) =>
    cases hp : Json.parse (jsTrim (stripFences content)) with
    | none => simp [hp, synthesisFails]
    | some parsed => cases parsed <;> simp [hp, synthesisFails]

/-- The session invariant: the counter never passes the final round, the
initial stage always carries counter zero, and before completion the
concepts list still holds its initial empty array. -/
def SessionInv (s : AppState) : Prop :=
  s.questionCount ≤ MAX_QUESTIONS - 1 ∧
  (s.stage = "initial" → s.questionCount = 0) ∧
  (s.stage ≠ "completed" → s.appConcepts = some (Json.arr []))

/-- The invariant transfers along steps that keep the counter, stage and
concepts. -/
lemma sessionInv_transfer {s t : AppState}
    (hc : t.questionCount = s.questionCount) (hst : t.stage = s.stage)
    (hcon : t.appConcepts = s.appConcepts) (ih : SessionInv s) : SessionInv t := by
  obtain ⟨ihb, ihz, ihcon⟩ := ih
  refine ⟨by rw [hc]; exact ihb, ?_, ?_⟩
  · intro h'
    rw [hc]
    exact ihz (by rw [← hst]; exact h')
  · intro h'
    rw [hcon]
    exact ihcon (fun hx => h' (by rw [hst, hx]))

/-- Branch analysis of `handleSendMessage`: either the stage, counter and
concepts are untouched, or the stage moved to in-progress with the counter
set to 1 (first question received) or kept (question request failed); the
concepts are never touched. -/
lemma sendMessage_cases (s : AppState) (now : Nat) (vr qr : GatewayReply) :
    ((handleSendMessage s now vr qr).1.questionCount = s.questionCount ∧
     (handleSendMessage s now vr qr).1.stage = s.stage ∧
     (handleSendMessage s now vr qr).1.appConcepts = s.appConcepts) ∨
    ((handleSendMessage s now vr qr).1.stage = "in_progress" ∧
     ((handleSendMessage s now vr qr).1.questionCount = 1 ∨
      (handleSendMessage s now vr qr).1.questionCount = s.questionCount) ∧
     (handleSendMessage s now vr qr).1.appConcepts = s.appConcepts) := by
  unfold handleSendMessage
  split
  · exact Or.inl ⟨rfl, rfl, rfl⟩
  · split
    · exact Or.inl ⟨by simp, by simp, by simp⟩
    · split
      · split
        · exact Or.inr ⟨by simp, Or.inl (by simp), by simp⟩
        · exact Or.inr ⟨by simp, Or.inr (by simp), by simp⟩
      · split
        · exact Or.inl ⟨rfl, rfl, rfl⟩
        · exact Or.inl ⟨rfl, rfl, rfl⟩

/-- Branch analysis of `handleNextStep`: a no-op on empty selection; below
the final round the stage and concepts are kept and the counter grows by
at most one; at the final round the stage completes and the counter is
kept. -/
lemma nextStep_cases (s : AppState) (now : Nat) (r : GatewayReply) :
    (handleNextStep s now r).1 = s ∨
    (s.questionCount < MAX_QUESTIONS - 1 ∧
     (handleNextStep s now r).1.stage = s.stage ∧
     (handleNextStep s now r).1.appConcepts = s.appConcepts ∧
     ((handleNextStep s now r).1.questionCount = s.questionCount ∨
      (handleNextStep s now r).1.questionCount = s.questionCount + 1)) ∨
    (¬ s.questionCount < MAX_QUESTIONS - 1 ∧
     (handleNextStep s now r).1.stage = "completed" ∧
     (handleNextStep s now r).1.questionCount = s.questionCount) := by
  unfold handleNextStep
  split
  · exact Or.inl rfl
  · split
    · rename_i h1
      refine Or.inr (Or.inl ?_)
      split
      · exact ⟨h1, by simp, by simp, Or.inr (by simp)⟩
      · exact ⟨h1, by simp, by simp, Or.inl (by simp)⟩
    · rename_i h1
      refine Or.inr (Or.inr ?_)
      split
      · split
        · exact ⟨h1, by simp, by simp⟩
        · exact ⟨h1, by simp, by simp⟩
        · exact ⟨h1, by simp, by simp⟩
      · exact ⟨h1, by simp, by simp⟩

/-- `handleChoiceToggle` keeps the counter, stage and concepts. -/
lemma toggle_frame (s : AppState) (l : String) :
    (handleChoiceToggle s l).questionCount = s.questionCount ∧
    (handleChoiceToggle s l).stage = s.stage ∧
    (handleChoiceToggle s l).appConcepts = s.appConcepts := ⟨rfl, rfl, rfl⟩

/-- `handleMoreChoices` keeps the counter, stage, concepts and the
selected labels in every branch. -/
lemma moreChoices_frame (s : AppState) (now : Nat) (r : GatewayReply) :
    (handleMoreChoices s now r).1.questionCount = s.questionCount ∧
    (handleMoreChoices s now r).1.stage = s.stage ∧
    (handleMoreChoices s now r).1.appConcepts = s.appConcepts ∧
    (handleMoreChoices s now r).1.selectedChoices = s.selectedChoices := by
  unfold handleMoreChoices
  split
  · split
    · exact ⟨by simp, by simp, by simp, by simp⟩
    · exact ⟨by simp, by simp, by simp, by simp⟩
  · exact ⟨by simp, by simp, by simp, by simp⟩

/-- Every reachable state satisfies the session invariant. -/
lemma reachable_sessionInv (s : AppState) (h : Reachable s) : SessionInv s := by
  induction h with
  | init => exact ⟨by decide, fun _ => rfl, fun _ => rfl⟩
  | setInput s v hs ih => exact sessionInv_transfer rfl rfl rfl ih
  | send s now vr qr hs hstage ih =>
    rcases sendMessage_cases s now vr qr with ⟨hc, hst, hcon⟩ | ⟨hst, hc, hcon⟩
    · exact sessionInv_transfer hc hst hcon ih
    · obtain ⟨ihb, ihz, ihcon⟩ := ih
      refine ⟨?_, ?_, ?_⟩
      · rcases hc with h2 | h2
        · rw [h2]; decide
        · rw [h2]; exact ihb
      · intro h'
        rw [hst] at h'
        exact absurd h' (by decide)
      · intro h'
        rw [hcon]
        exact ihcon (fun hx => by rw [hstage] at hx; exact absurd hx (by decide))
  | toggle s l hs ih =>
    obtain ⟨hc, hst, hcon⟩ := toggle_frame s l
    exact sessionInv_transfer hc hst hcon ih
  | next s now r hs hstage ih =>
    rcases nextStep_cases s now r with heq | ⟨h1, hst, hcon, hc⟩ | ⟨h1, hst, hc⟩
    · rw [heq]; exact ih
    · obtain ⟨ihb, ihz, ihcon⟩ := ih
      refine ⟨?_, ?_, ?_⟩
      · rcases hc with h2 | h2
        · rw [h2]; exact ihb
        · rw [h2]
          have h5 : MAX_QUESTIONS = 5 := rfl
          omega
      · intro h'
        rw [hst] at h'
        exact absurd h' hstage
      · intro h'
        rw [hcon]
        exact ihcon (fun hx => h' (by rw [hst, hx]))
    · obtain ⟨ihb, ihz, ihcon⟩ := ih
      refine ⟨?_, ?_, ?_⟩
      · rw [hc]; exact ihb
      · intro h'
        rw [hst] at h'
        exact absurd h' (by decide)
      · intro h'
        rw [hst] at h'
        exact absurd rfl h'
  | more s now r hs ih =>
    obtain ⟨hc, hst, hcon, _⟩ := moreChoices_frame s now r
    exact sessionInv_transfer hc hst hcon ih
  | reset s hs ih => exact ⟨Nat.zero_le _, fun _ => rfl, fun _ => rfl⟩

/-- A sequence of toggle events folded over the state. -/
def applyToggles (s : AppState) (ls : List String) : AppState :=
  ls.foldl handleChoiceToggle s

/-- Consistency between a choice list and the selected-labels list: a
choice is marked selected exactly when its label is listed, and every
listed label belongs to some choice. -/
def labelsMatch (cs : List Choice) (sel : List String) : Prop :=
  (∀ c ∈ cs, c.isSelected = true ↔ c.label ∈ sel) ∧
  (∀ l ∈ sel, ∃ c ∈ cs, c.label = l)

/-- Toggling never changes the labels of the choice list. -/
lemma toggleChoices_labels (cs : List Choice) (l : String) :
    (toggleChoices cs l).map Choice.label = cs.map Choice.label := by
  unfold toggleChoices
  induction cs with
  | nil => rfl
  | cons c cs ih =>
    simp only [List.map_cons, ih]
    by_cases h : c.label = l
    · rw [if_pos h]
    · rw [if_neg h]

/-- The image of a choice under the toggle map keeps its label and stays
in the toggled list. -/
lemma label_mem_toggleChoices (cs : List Choice) (l lab : String) (c : Choice)
    (hc : c ∈ cs) (hcl : c.label = lab) :
    ∃ c' ∈ toggleChoices cs l, c'.label = lab := by
  refine ⟨if c.label = l then { c with isSelected := !c.isSelected } else c, ?_, ?_⟩
  · unfold toggleChoices
    exact List.mem_map_of_mem _ hc
  · by_cases hx : c.label = l
    · rw [if_pos hx]
      exact hcl
    · rw [if_neg hx]
      exact hcl

/-- One toggle of a label present in the choice list preserves the
consistency invariant. -/
lemma labelsMatch_toggle (cs : List Choice) (sel : List String) (l : String)
    (hl : l ∈ cs.map Choice.label) (h : labelsMatch cs sel) :
    labelsMatch (toggleChoices cs l) (toggleSel sel l) := by
  obtain ⟨h1, h2⟩ := h
  constructor
  · intro c' hc'
    unfold toggleChoices at hc'
    obtain ⟨c, hc, hfc⟩ := List.mem_map.1 hc'
    by_cases hcl : c.label = l
    · rw [if_pos hcl] at hfc
      subst hfc
      by_cases hmem : l ∈ sel
      · have hselT : c.isSelected = true := (h1 c hc).2 (by rw [hcl]; exact hmem)
        show (!c.isSelected) = true ↔ c.label ∈ toggleSel sel l
        rw [hselT, hcl]
        unfold toggleSel
        rw [if_pos hmem]
        simp [List.mem_filter]
      · have hsel0 : c.isSelected = false := by
          cases hcs : c.isSelected
          · rfl
          · exfalso
            have hmm := (h1 c hc).1 hcs
            rw [hcl] at hmm
            exact hmem hmm
        show (!c.isSelected) = true ↔ c.label ∈ toggleSel sel l
        rw [hsel0, hcl]
        unfold toggleSel
        rw [if_neg hmem]
        simp
    · rw [if_neg hcl] at hfc
      subst hfc
      rw [h1 c hc]
      unfold toggleSel
      by_cases hmem : l ∈ sel
      · rw [if_pos hmem]
        constructor
        · intro hx
          exact List.mem_filter.2 ⟨hx, by simpa using hcl⟩
        · intro hx
          exact (List.mem_filter.1 hx).1
      · rw [if_neg hmem]
        simp [hcl]
  · intro lab hlab
    unfold toggleSel at hlab
    by_cases hmem : l ∈ sel
    · rw [if_pos hmem] at hlab
      obtain ⟨c, hc, hcl⟩ := h2 lab ((List.mem_filter.1 hlab).1)
      exact label_mem_toggleChoices cs l lab c hc hcl
    · rw [if_neg hmem] at hlab
      rcases List.mem_append.1 hlab with hlab' | hlab'
      · obtain ⟨c, hc, hcl⟩ := h2 lab hlab'
        exact label_mem_toggleChoices cs l lab c hc hcl
      · have hlabl : lab = l := by simpa using hlab'
        subst hlabl
        obtain ⟨c, hc, hcl⟩ := List.mem_map.1 hl
        exact label_mem_toggleChoices cs lab lab c hc hcl

/-- A freshly received choice set (all options unselected) together with
the empty selected list is consistent. -/
lemma labelsMatch_fresh (opts : List String) :
    labelsMatch (opts.map (fun o => { label := o, isSelected := false })) [] := by
  constructor
  · intro c hc
    obtain ⟨o, ho, rfl⟩ := List.mem_map.1 hc
    simp
  · intro l hl
    simp at hl

/-- Folding any toggle sequence whose labels come from the choice set
preserves the consistency invariant and the labels themselves. -/
lemma applyToggles_invariant (ls : List String) (s : AppState)
    (hmatch : labelsMatch s.choices s.selectedChoices)
    (hls : ∀ l ∈ ls, l ∈ s.choices.map Choice.label) :
    labelsMatch (applyToggles s ls).choices (applyToggles s ls).selectedChoices ∧
    (applyToggles s ls).choices.map Choice.label = s.choices.map Choice.label := by
  induction ls generalizing s with
  | nil => exact ⟨hmatch, rfl⟩
  | cons l ls ih =>
    have hl : l ∈ s.choices.map Choice.label := hls l (List.mem_cons_self _ _)
    have hstep : labelsMatch (handleChoiceToggle s l).choices (handleChoiceToggle s l).selectedChoices :=
      labelsMatch_toggle s.choices s.selectedChoices l hl hmatch
    have hlabels : (handleChoiceToggle s l).choices.map Choice.label = s.choices.map Choice.label :=
      toggleChoices_labels s.choices l
    have hls' : ∀ x ∈ ls, x ∈ (handleChoiceToggle s l).choices.map Choice.label := by
      intro x hx
      rw [hlabels]
      exact hls x (List.mem_cons_of_mem _ hx)
    have hrec := ih (handleChoiceToggle s l) hstep hls'
    exact ⟨hrec.1, hrec.2.trans hlabels⟩

/-- A consistent pair makes the selected-list membership test agree with
scanning the choice list for a selected choice of that label. -/
lemma labelsMatch_contains_any (cs : List Choice) (sel : List String) (lab : String)
    (h : labelsMatch cs sel) :
    sel.contains lab = cs.any (fun c => c.label == lab && c.isSelected) := by
  obtain ⟨h1, h2⟩ := h
  have hc : sel.contains lab = true ↔ lab ∈ sel := by
    constructor
    · intro hx
      exact List.elem_iff.1 hx
    · intro hx
      exact List.elem_eq_true_of_mem hx
  rw [Bool.eq_iff_iff, hc, List.any_eq_true]
  constructor
  · intro hm
    obtain ⟨c, hcmem, hcl⟩ := h2 lab hm
    refine ⟨c, hcmem, ?_⟩
    have hsel : c.isSelected = true := (h1 c hcmem).2 (by rw [hcl]; exact hm)
    rw [hcl, hsel]
    simp
  · rintro ⟨c, hcmem, hp⟩
    obtain ⟨hbeq, hsel⟩ := Bool.and_eq_true_iff.1 hp
    have hcl : c.label = lab := by simpa using hbeq
    rw [← hcl]
    exact (h1 c hcmem).1 hsel

/-- C1: a Gateway question reply whose parsed JSON has an options array of
length different from five, or a missing question field, is rejected by
`handleApiCall` as the malformed-structure error; the submission handler
then leaves the Choice set unchanged (`setChoices` is never reached) and
surfaces the error message instead. -/
theorem malformed_question_reply_rejected (s : AppState) (now : Nat)
    (content : String) (j : Json)
    (hsel : s.selectedChoices ≠ []) (hcnt : s.questionCount < MAX_QUESTIONS - 1)
    (hparse : Json.parse content = some j) (hbad : badQuestionShape j = true) :
    handleApiCall (GatewayReply.success (some content)) =
      Except.error ("Failed to process AI response: Invalid response structure from AI") ∧
    (handleNextStep s now (GatewayReply.success (some content))).1.choices = s.choices ∧
    (handleNextStep s now (GatewayReply.success (some content))).1.messages.getLast? =
      some { content := "I\x27m sorry, I encountered an error generating the next question. Please try again.",
             isUser := false, id := now, opacity := 1 } := by
  have herr := apiCall_error_of_badShape content j hparse hbad
  have hns := nextStep_apiError s now (GatewayReply.success (some content)) _ hsel hcnt herr
  exact ⟨herr, hns.1, hns.2.2.2⟩

/-- A reply with only two options, used to exercise C1 concretely. -/
def badOptionsContent : String := "\x7b\"question\": \"Q\", \"options\": [\"A\", \"B\"]\x7d"

/-- The parse of `badOptionsContent`. -/
def badOptionsJson : Json :=
  Json.obj [("question", Json.str ("Q")), ("options", Json.arr [Json.str ("A"), Json.str ("B")])]

/-- Witness for C1 at a concrete mid-session state and two-option reply. -/
theorem malformed_question_reply_rejected_witness :
    demoState3.selectedChoices ≠ [] ∧
    demoState3.questionCount < MAX_QUESTIONS - 1 ∧
    Json.parse badOptionsContent = some badOptionsJson ∧
    badQuestionShape badOptionsJson = true ∧
    (handleApiCall (GatewayReply.success (some badOptionsContent)) =
       Except.error ("Failed to process AI response: Invalid response structure from AI") ∧
     (handleNextStep demoState3 9 (GatewayReply.success (some badOptionsContent))).1.choices =
       demoState3.choices ∧
     (handleNextStep demoState3 9 (GatewayReply.success (some badOptionsContent))).1.messages.getLast? =
       some { content := "I\x27m sorry, I encountered an error generating the next question. Please try again.",
              isUser := false, id := 9, opacity := 1 }) :=
  ⟨by decide, by decide, by rfl, by rfl,
   malformed_question_reply_rejected demoState3 9 badOptionsContent badOptionsJson
     (by decide) (by decide) (by rfl) (by rfl)⟩

/-- C2: starting from a freshly received Choice set, after any sequence of
toggles of labels drawn from that set, a label passes the selected-list
membership test exactly when a choice with that label is marked selected. -/
theorem toggles_keep_selection_consistent (s : AppState) (opts ls : List String) (lab : String)
    (hch : s.choices = opts.map (fun o => { label := o, isSelected := false }))
    (hsel : s.selectedChoices = [])
    (hls : ∀ l ∈ ls, l ∈ opts) :
    (applyToggles s ls).selectedChoices.contains lab =
      (applyToggles s ls).choices.any (fun c => c.label == lab && c.isSelected) := by
  have hmatch : labelsMatch s.choices s.selectedChoices := by
    rw [hch, hsel]
    exact labelsMatch_fresh opts
  have hls' : ∀ l ∈ ls, l ∈ s.choices.map Choice.label := by
    intro l hl
    rw [hch, List.map_map]
    simpa using hls l hl
  have h := applyToggles_invariant ls s hmatch hls'
  exact labelsMatch_contains_any _ _ lab h.1

/-- A two-choice state for the C2 witness. -/
def freshChoicesState : AppState :=
  { initState with
      choices := [{ label := "A", isSelected := false }, { label := "B", isSelected := false }] }

/-- Witness for C2 on a concrete toggle sequence (toggle A on, B on, A
back off). -/
theorem toggles_keep_selection_consistent_witness :
    (applyToggles freshChoicesState ["A", "B", "A"]).selectedChoices.contains ("B") =
      (applyToggles freshChoicesState ["A", "B", "A"]).choices.any
        (fun c => c.label == "B" && c.isSelected) :=
  toggles_keep_selection_consistent freshChoicesState ["A", "B"] ["A", "B", "A"] ("B")
    (by rfl) (by rfl) (by decide)

/-- C3: in every reachable session state the question counter is below the
maximum of five; no submission, toggle or more-options event decreases
it; and once the counter has reached `MAX_QUESTIONS - 1`, a submission
with a nonempty selection completes the stage, keeps the counter, and
issues exactly the concept-synthesis request instead of another question. -/
theorem questionCount_monotone_bounded (s : AppState) (h : Reachable s)
    (now : Nat) (vr r : GatewayReply) (l : String) :
    s.questionCount < MAX_QUESTIONS ∧
    (s.stage = "initial" → s.questionCount ≤ (handleSendMessage s now vr r).1.questionCount) ∧
    s.questionCount ≤ (handleNextStep s now r).1.questionCount ∧
    (handleChoiceToggle s l).questionCount = s.questionCount ∧
    (handleMoreChoices s now r).1.questionCount = s.questionCount ∧
    (s.questionCount = MAX_QUESTIONS - 1 → s.selectedChoices ≠ [] →
      (handleNextStep s now r).1.stage = "completed" ∧
      (handleNextStep s now r).1.questionCount = s.questionCount ∧
      (handleNextStep s now r).2 = [Request.synthesize]) := by
  obtain ⟨hb, hz, hcon⟩ := reachable_sessionInv s h
  refine ⟨?_, ?_, ?_, (toggle_frame s l).1, (moreChoices_frame s now r).1, ?_⟩
  · have h5 : MAX_QUESTIONS = 5 := rfl
    omega
  · intro hst
    rw [hz hst]
    exact Nat.zero_le _
  · rcases nextStep_cases s now r with heq | ⟨h1, _, _, hc⟩ | ⟨h1, _, hc⟩
    · rw [heq]
    · rcases hc with h2 | h2 <;> omega
    · rw [hc]
  · intro hcnt hselne
    have hcnt' : ¬ s.questionCount < MAX_QUESTIONS - 1 := by omega
    have hfr := nextStep_final_round s now r hselne hcnt'
    exact ⟨hfr.1, hfr.2.1, hfr.2.2.2.2.1⟩

/-- Witness for C3 at the reachable final-round state. -/
theorem questionCount_monotone_bounded_witness :
    demoState9.questionCount < MAX_QUESTIONS ∧
    (demoState9.stage = "initial" →
      demoState9.questionCount ≤
        (handleSendMessage demoState9 0 (GatewayReply.failure ("x")) (GatewayReply.failure ("x"))).1.questionCount) ∧
    demoState9.questionCount ≤ (handleNextStep demoState9 0 (GatewayReply.failure ("x"))).1.questionCount ∧
    (handleChoiceToggle demoState9 ("A")).questionCount = demoState9.questionCount ∧
    (handleMoreChoices demoState9 0 (GatewayReply.failure ("x"))).1.questionCount = demoState9.questionCount ∧
    (demoState9.questionCount = MAX_QUESTIONS - 1 → demoState9.selectedChoices ≠ [] →
      (handleNextStep demoState9 0 (GatewayReply.failure ("x"))).1.stage = "completed" ∧
      (handleNextStep demoState9 0 (GatewayReply.failure ("x"))).1.questionCount = demoState9.questionCount ∧
      (handleNextStep demoState9 0 (GatewayReply.failure ("x"))).2 = [Request.synthesize]) :=
  questionCount_monotone_bounded demoState9 demoState9_reachable 0
    (GatewayReply.failure ("x")) (GatewayReply.failure ("x")) ("A")

/-- C4: an in-progress submission with an empty selection is a complete
no-op — the state is returned unchanged and no Gateway request is issued. -/
theorem empty_selection_submit_noop (s : AppState) (now : Nat) (r : GatewayReply)
    (hstage : s.stage = "in_progress") (hsel : s.selectedChoices = []) :
    handleNextStep s now r = (s, []) := by
  unfold handleNextStep
  rw [if_pos (by rw [hsel]; rfl)]

/-- Witness for C4 at the reachable state right after the first question. -/
theorem empty_selection_submit_noop_witness :
    demoState2.stage = "in_progress" ∧ demoState2.selectedChoices = [] ∧
    handleNextStep demoState2 3 (GatewayReply.failure ("x")) = (demoState2, []) :=
  ⟨by rfl, by rfl,
   empty_selection_submit_noop demoState2 3 (GatewayReply.failure ("x")) (by rfl) (by rfl)⟩

/-- C5 fails as stated: resetting from the `completed` stage does not
return every stateful flag to its initial value — at the completed state
produced by the demonstration session, `showCombinedPrompt` is `true` and
`resetApp` leaves it `true`, while its initial value is `false`. -/
theorem reset_keeps_showCombinedPrompt :
    demoCompletedState.stage = "completed" ∧
    initState.showCombinedPrompt = false ∧
    (resetApp demoCompletedState).showCombinedPrompt = true :=
  ⟨by rfl, by rfl, by rfl⟩

/-- C5 amended: reset from `completed` restores exactly the eight fields
`resetApp` writes (stage, messages, input, choices, selected labels,
counter, concepts, progress) to their initial values, and keeps every
other stateful flag (`showCombinedPrompt`, `currentQuestion`,
`promptError`, `isLoading`, `showChoices`, `isTypingComplete`,
`isGeneratingConcepts`) at its pre-reset value. -/
theorem reset_restores_written_fields (s : AppState) (hstage : s.stage = "completed") :
    (resetApp s).stage = initState.stage ∧
    (resetApp s).messages = initState.messages ∧
    (resetApp s).input = initState.input ∧
    (resetApp s).choices = initState.choices ∧
    (resetApp s).selectedChoices = initState.selectedChoices ∧
    (resetApp s).questionCount = initState.questionCount ∧
    (resetApp s).appConcepts = initState.appConcepts ∧
    (resetApp s).progress = initState.progress ∧
    (resetApp s).showCombinedPrompt = s.showCombinedPrompt ∧
    (resetApp s).currentQuestion = s.currentQuestion ∧
    (resetApp s).promptError = s.promptError ∧
    (resetApp s).isLoading = s.isLoading ∧
    (resetApp s).showChoices = s.showChoices ∧
    (resetApp s).isTypingComplete = s.isTypingComplete ∧
    (resetApp s).isGeneratingConcepts = s.isGeneratingConcepts :=
  ⟨rfl, rfl, rfl, rfl, rfl, rfl, rfl, rfl, rfl, rfl, rfl, rfl, rfl, rfl, rfl⟩

/-- Witness for the amended C5 at the demonstration completed state. -/
theorem reset_restores_written_fields_witness :
    demoCompletedState.stage = "completed" ∧
    ((resetApp demoCompletedState).stage = initState.stage ∧
     (resetApp demoCompletedState).messages = initState.messages ∧
     (resetApp demoCompletedState).input = initState.input ∧
     (resetApp demoCompletedState).choices = initState.choices ∧
     (resetApp demoCompletedState).selectedChoices = initState.selectedChoices ∧
     (resetApp demoCompletedState).questionCount = initState.questionCount ∧
     (resetApp demoCompletedState).appConcepts = initState.appConcepts ∧
     (resetApp demoCompletedState).progress = initState.progress ∧
     (resetApp demoCompletedState).showCombinedPrompt = demoCompletedState.showCombinedPrompt ∧
     (resetApp demoCompletedState).currentQuestion = demoCompletedState.currentQuestion ∧
     (resetApp demoCompletedState).promptError = demoCompletedState.promptError ∧
     (resetApp demoCompletedState).isLoading = demoCompletedState.isLoading ∧
     (resetApp demoCompletedState).showChoices = demoCompletedState.showChoices ∧
     (resetApp demoCompletedState).isTypingComplete = demoCompletedState.isTypingComplete ∧
     (resetApp demoCompletedState).isGeneratingConcepts = demoCompletedState.isGeneratingConcepts) :=
  ⟨by rfl, reset_restores_written_fields demoCompletedState (by rfl)⟩

/-- A more-options reply with a single option — the shape the spec says is
accepted (length at least one). -/
def moreOptionsContent : String := "\x7b\"options\": [\"Offline mode\"]\x7d"

/-- C6 exhibits the bug: the single-option more-options reply (length 1,
which the spec accepts) is rejected, because every reply goes through
`handleApiCall`, whose validation demands a truthy question field and
exactly five options regardless of the `expectQuestion` flag passed as
`false`; the Choice set stays unchanged and the error is surfaced. -/
theorem moreOptions_minimal_reply_rejected :
    (handleMoreChoices demoState3 7 (GatewayReply.success (some moreOptionsContent))).1.choices =
      demoState3.choices ∧
    (handleMoreChoices demoState3 7 (GatewayReply.success (some moreOptionsContent))).1.messages.getLast? =
      some { content := "I\x27m sorry, I encountered an error while fetching more options: Failed to process AI response: Invalid response structure from AI. Please try again.",
             isUser := false, id := 7, opacity := 1 } :=
  ⟨by rfl, by rfl⟩

/-- A question reply that is valid JSON wrapped in a code fence. -/
def fencedQuestionContent : String :=
  "\x60\x60\x60json\n\x7b\"question\": \"Q2\", \"options\": [\"A\", \"B\", \"C\", \"D\", \"E\"]\x7d\n\x60\x60\x60"

/-- C7 fails as stated: this question reply is valid JSON after fence
stripping, yet `handleApiCall` (used by askQuestion and askMoreOptions)
parses the raw text and rejects it as a JSON parse error, leaving the
Choice set unchanged — fences are only stripped on the synthesis path. -/
theorem fenced_question_reply_rejected :
    (Json.parse (jsTrim (stripFences fencedQuestionContent))).isSome = true ∧
    handleApiCall (GatewayReply.success (some fencedQuestionContent)) =
      Except.error ("Failed to process AI response: Invalid JSON format in AI response") ∧
    (handleNextStep demoState3 11 (GatewayReply.success (some fencedQuestionContent))).1.choices =
      demoState3.choices :=
  ⟨by rfl, by rfl, by rfl⟩

/-- C7 amended: only the concept-synthesis reply is stripped of code
fences before structural parsing — a fenced reply whose stripped text
parses to a non-null JSON value is accepted there, its `appConcepts`
field stored with progress 100, while one parsing to the bare JSON null
throws at the property access and takes the caught error path (progress
stays 90, concepts untouched) — and the question-reply path parses the
raw text, so the same fenced content is reported as a JSON parse error by
`handleApiCall`. -/
theorem fence_stripping_only_in_synthesis (s : AppState) (now : Nat)
    (content : String) (j : Json)
    (hsel : s.selectedChoices ≠ []) (hcnt : ¬ s.questionCount < MAX_QUESTIONS - 1)
    (hstrip : Json.parse (jsTrim (stripFences content)) = some j)
    (hraw : Json.parse content = none) :
    (j ≠ Json.null →
      (handleNextStep s now (GatewayReply.success (some content))).1.appConcepts =
        j.getField ("appConcepts") ∧
      (handleNextStep s now (GatewayReply.success (some content))).1.progress = 100) ∧
    (j = Json.null →
      (handleNextStep s now (GatewayReply.success (some content))).1.progress = 90 ∧
      (handleNextStep s now (GatewayReply.success (some content))).1.appConcepts =
        s.appConcepts) ∧
    handleApiCall (GatewayReply.success (some content)) =
      Except.error ("Failed to process AI response: Invalid JSON format in AI response") := by
  have hlen : ¬ s.selectedChoices.length = 0 := by simpa using hsel
  refine ⟨?_, ?_, ?_⟩
  · intro hnn
    constructor <;>
      (unfold handleNextStep
       rw [if_neg hlen, if_neg hcnt]
       cases j
       case null => exact absurd rfl hnn
       all_goals simp [hstrip])
  · intro hj
    subst hj
    constructor <;>
      (unfold handleNextStep
       rw [if_neg hlen, if_neg hcnt]
       simp [hstrip])
  · simp only [handleApiCall, handleApiCallCore, hraw]
    rfl

/-- A synthesis reply wrapped in a code fence. -/
def fencedConceptsContent : String :=
  "\x60\x60\x60json\n\x7b\"appConcepts\": [\"x\"]\x7d\n\x60\x60\x60"

/-- The parse of `fencedConceptsContent` after stripping. -/
def fencedConceptsJson : Json := Json.obj [("appConcepts", Json.arr [Json.str ("x")])]

/-- Witness for the amended C7 at the reachable final-round state. -/
theorem fence_stripping_only_in_synthesis_witness :
    demoState9.selectedChoices ≠ [] ∧
    ¬ demoState9.questionCount < MAX_QUESTIONS - 1 ∧
    Json.parse (jsTrim (stripFences fencedConceptsContent)) = some fencedConceptsJson ∧
    Json.parse fencedConceptsContent = none ∧
    ((fencedConceptsJson ≠ Json.null →
       (handleNextStep demoState9 12 (GatewayReply.success (some fencedConceptsContent))).1.appConcepts =
         fencedConceptsJson.getField ("appConcepts") ∧
       (handleNextStep demoState9 12 (GatewayReply.success (some fencedConceptsContent))).1.progress = 100) ∧
     (fencedConceptsJson = Json.null →
       (handleNextStep demoState9 12 (GatewayReply.success (some fencedConceptsContent))).1.progress = 90 ∧
       (handleNextStep demoState9 12 (GatewayReply.success (some fencedConceptsContent))).1.appConcepts =
         demoState9.appConcepts) ∧
     handleApiCall (GatewayReply.success (some fencedConceptsContent)) =
       Except.error ("Failed to process AI response: Invalid JSON format in AI response")) :=
  ⟨by decide, by decide, by rfl, by rfl,
   fence_stripping_only_in_synthesis demoState9 12 fencedConceptsContent fencedConceptsJson
     (by decide) (by decide) (by rfl) (by rfl)⟩

/-- C8 fails as stated: the two-entry synthesis reply of the
demonstration session is accepted — parsing succeeds and progress reaches
100 — and exactly the two entries are stored in the concepts list, not
three AppConcept objects with three key features. -/
theorem synthesis_stores_two_entries :
    demoCompletedState.progress = 100 ∧
    demoCompletedState.stage = "completed" ∧
    demoCompletedState.appConcepts = some (Json.arr [Json.str ("x"), Json.str ("y")]) :=
  ⟨by rfl, by rfl, by rfl⟩

/-- C8 amended: a synthesis reply whose stripped text parses to a
non-null JSON value stores its `appConcepts` field verbatim with
progress 100, with no validation of the number of concepts or of their
key features — the three-by-three shape is only requested through the
prompt text — while a reply parsing to the bare JSON null throws at the
property access and is handled as an error (progress stays 90, concepts
untouched). -/
theorem synthesis_stores_reply_verbatim (s : AppState) (now : Nat)
    (content : String) (j : Json)
    (hsel : s.selectedChoices ≠ []) (hcnt : ¬ s.questionCount < MAX_QUESTIONS - 1)
    (hstrip : Json.parse (jsTrim (stripFences content)) = some j) :
    (j ≠ Json.null →
      (handleNextStep s now (GatewayReply.success (some content))).1.appConcepts =
        j.getField ("appConcepts") ∧
      (handleNextStep s now (GatewayReply.success (some content))).1.progress = 100) ∧
    (j = Json.null →
      (handleNextStep s now (GatewayReply.success (some content))).1.progress = 90 ∧
      (handleNextStep s now (GatewayReply.success (some content))).1.appConcepts =
        s.appConcepts) := by
  have hlen : ¬ s.selectedChoices.length = 0 := by simpa using hsel
  constructor
  · intro hnn
    constructor <;>
      (unfold handleNextStep
       rw [if_neg hlen, if_neg hcnt]
       cases j
       case null => exact absurd rfl hnn
       all_goals simp [hstrip])
  · intro hj
    subst hj
    constructor <;>
      (unfold handleNextStep
       rw [if_neg hlen, if_neg hcnt]
       simp [hstrip])

/-- The parse of `demoConceptsContent`. -/
def demoConceptsJson : Json :=
  Json.obj [("appConcepts", Json.arr [Json.str ("x"), Json.str ("y")])]

/-- Witness for the amended C8 at the reachable final-round state. -/
theorem synthesis_stores_reply_verbatim_witness :
    demoState9.selectedChoices ≠ [] ∧
    ¬ demoState9.questionCount < MAX_QUESTIONS - 1 ∧
    Json.parse (jsTrim (stripFences demoConceptsContent)) = some demoConceptsJson ∧
    ((demoConceptsJson ≠ Json.null →
       (handleNextStep demoState9 5 (GatewayReply.success (some demoConceptsContent))).1.appConcepts =
         demoConceptsJson.getField ("appConcepts") ∧
       (handleNextStep demoState9 5 (GatewayReply.success (some demoConceptsContent))).1.progress = 100) ∧
     (demoConceptsJson = Json.null →
       (handleNextStep demoState9 5 (GatewayReply.success (some demoConceptsContent))).1.progress = 90 ∧
       (handleNextStep demoState9 5 (GatewayReply.success (some demoConceptsContent))).1.appConcepts =
         demoState9.appConcepts)) :=
  ⟨by decide, by decide, by rfl,
   synthesis_stores_reply_verbatim demoState9 5 demoConceptsContent demoConceptsJson
     (by decide) (by decide) (by rfl)⟩

/-- C9: submitting an empty or whitespace-only prompt in the initial
stage sets the user-visible prompt error and nothing else — the stage,
messages, input and every other field keep their values, and no Gateway
request (not even the classification call) is issued. -/
theorem empty_prompt_rejected_without_request (s : AppState) (now : Nat) (vr qr : GatewayReply)
    (hstage : s.stage = "initial") (hempty : jsTrim s.input = "") :
    handleSendMessage s now vr qr =
      ({ s with promptError := some ("Your prompt is too abstract. Please be more specific.") }, []) := by
  unfold handleSendMessage
  rw [if_pos hempty]

/-- A whitespace-only prompt in the initial state. -/
def blankPromptState : AppState := { initState with input := "   " }

/-- Witness for C9 on the whitespace-only prompt. -/
theorem empty_prompt_rejected_without_request_witness :
    blankPromptState.stage = "initial" ∧
    jsTrim blankPromptState.input = "" ∧
    handleSendMessage blankPromptState 0 (GatewayReply.failure ("x")) (GatewayReply.failure ("x")) =
      ({ blankPromptState with
           promptError := some ("Your prompt is too abstract. Please be more specific.") }, []) :=
  ⟨by rfl, by rfl,
   empty_prompt_rejected_without_request blankPromptState 0
     (GatewayReply.failure ("x")) (GatewayReply.failure ("x")) (by rfl) (by rfl)⟩

/-- C10: on the completing submission (reachable in-progress state, final
counter value, nonempty selection), the history is emptied and the stage
set to `completed` while the synthesis request is issued; when the
synthesis reply fails — transport failure, null content, or text that is
not JSON even after fence stripping — those mutations persist and the
concepts list is still the empty array. -/
theorem failed_synthesis_keeps_completed_state (s : AppState) (now : Nat) (r : GatewayReply)
    (hreach : Reachable s) (hstage : s.stage = "in_progress")
    (hsel : s.selectedChoices ≠ []) (hcnt : ¬ s.questionCount < MAX_QUESTIONS - 1)
    (hfail : synthesisFails r = true) :
    (handleNextStep s now r).1.stage = "completed" ∧
    (handleNextStep s now r).1.messages = [] ∧
    (handleNextStep s now r).1.appConcepts = some (Json.arr []) ∧
    (handleNextStep s now r).2 = [Request.synthesize] := by
  have hfr := nextStep_final_round s now r hsel hcnt
  have hconc : s.appConcepts = some (Json.arr []) :=
    (reachable_sessionInv s hreach).2.2 (by rw [hstage]; decide)
  refine ⟨hfr.1, hfr.2.2.1, ?_, hfr.2.2.2.2.1⟩
  rw [hfr.2.2.2.2.2 hfail]
  exact hconc

/-- Witness for C10 at the reachable final-round state with a transport
failure. -/
theorem failed_synthesis_keeps_completed_state_witness :
    demoState9.stage = "in_progress" ∧
    demoState9.selectedChoices ≠ [] ∧
    ¬ demoState9.questionCount < MAX_QUESTIONS - 1 ∧
    synthesisFails (GatewayReply.failure ("network error")) = true ∧
    ((handleNextStep demoState9 6 (GatewayReply.failure ("network error"))).1.stage = "completed" ∧
     (handleNextStep demoState9 6 (GatewayReply.failure ("network error"))).1.messages = [] ∧
     (handleNextStep demoState9 6 (GatewayReply.failure ("network error"))).1.appConcepts =
       some (Json.arr []) ∧
     (handleNextStep demoState9 6 (GatewayReply.failure ("network error"))).2 = [Request.synthesize]) :=
  ⟨by rfl, by decide, by decide, by rfl,
   failed_synthesis_keeps_completed_state demoState9 6 (GatewayReply.failure ("network error"))
     demoState9_reachable (by rfl) (by decide) (by decide) (by rfl)⟩

example :
    (handleNextStep demoState9 13
      (GatewayReply.success (some ("\x60\x60\x60json\nnull\n\x60\x60\x60")))).1.progress = 90 := by rfl

example :
    (handleNextStep demoState9 13
      (GatewayReply.success (some ("\x60\x60\x60json\nnull\n\x60\x60\x60")))).1.appConcepts =
      demoState9.appConcepts := by rfl
